import Mathlib

/-!
Shallow embedding of the `@vcita/event-bus-nestjs` subscriber retry/dead-letter
machinery and publisher validation, translated from the TypeScript sources:

* `src/utils/event-bus-decorator.utils.ts` — `buildQueueOptions`
* `src/modules/subscriber/decorators/subscribe-to.decorator.ts` — `SubscribeTo`,
  `getRoutingKey`, `buildQueueConfig`, `validateOptions`
* the legacy decorator (`LegacySubscribeTo`, `buildLegacyQueueConfig`)
* `event-retry-handler` (`EventError`, `NonRetryableError`, `RetryError`,
  `createEventRetryHandler`, `publishToErrorExchange`)
* `EventBusProcessingInterceptor` (`processEvent`, `validateEvent`,
  `handleRetry`, `getCurrentAttemptCount`)
* `EventBusMetricsService` (`getActualDomainEntityAction`, `parseRoutingKey`)
* `EventBusPublisher` (`validatePublishOptions`, `publish`) and
  `EventBuilder.buildRoutingKey`

JavaScript objects whose key/override order matters (broker queue `arguments`
and message headers) are embedded as association lists in literal source
order; `jsGet` returns the value of the LAST occurrence of a key, which is
exactly the semantics of a JS object literal with spreads (`{...a, ...b}`:
later keys overwrite earlier ones).
-/

namespace EventBusNest

/-- A JavaScript value appearing in broker queue arguments or message
headers: a string, a number, or a boolean. -/
inductive JVal where
  | str (s : String)
  | num (n : Nat)
  | bool (b : Bool)
  deriving DecidableEq, Repr

/-- A JavaScript object as an association list in literal/spread order.
Later entries overwrite earlier ones (JS object-literal semantics). -/
abbrev JObj := List (String × JVal)

/-- Effective value of key `k` in a JS object: the value of the last
occurrence of `k` (later spread entries win). -/
def jsGet (o : JObj) (k : String) : Option JVal :=
  match o with
  | [] => none
  | (k₀, v₀) :: rest =>
    match jsGet rest k with
    | some v => some v
    | none => if k₀ == k then some v₀ else none

/-- JS `a || b` for an optional string `a`: `b` when `a` is
`undefined`/`null` or the empty string (falsy), else `a`. -/
def jsOrStr (a : Option String) (b : String) : String :=
  match a with
  | some s => if s == "" then b else s
  | none => b

/-- System-wide retry defaults (`eventBusConfig.retry`). -/
structure RetryDefaults where
  defaultMaxRetries : Nat
  defaultRetryDelayMs : Nat
  deriving DecidableEq, Repr

/-- The configuration surface consumed by the decorators and the
publisher (`eventBusConfig`). -/
structure EventBusConfig where
  appName : String
  exchange : String
  legacyExchange : String
  defaultDomain : String
  retry : RetryDefaults
  deriving DecidableEq, Repr

/-- Per-subscription retry overrides (`RetryOptions`): both fields
optional. -/
structure RetryOptions where
  count : Option Nat
  delayMs : Option Nat
  deriving DecidableEq, Repr

/-- Options of the standard `SubscribeTo` decorator. `domain`, `entity`
and `action` are required strings in the TS interface; the decorator
treats the empty string as missing (JS falsiness). `queueOptions` and
`errorQueueOptions` are raw broker-argument overrides. -/
structure SubscribeToOptions where
  domain : String
  entity : String
  action : String
  queue : Option String
  queueOptions : JObj
  errorQueueOptions : JObj
  retry : Option RetryOptions
  deriving DecidableEq, Repr

/-- Options of the `LegacySubscribeTo` decorator. -/
structure LegacySubscribeToOptions where
  routingKey : String
  queue : Option String
  queueOptions : JObj
  errorQueueOptions : JObj
  retry : Option RetryOptions
  deriving DecidableEq, Repr

/-- JavaScript `String.prototype.toLowerCase`, embedded structurally:
lowercase every character. -/
def jsToLower (s : String) : String :=
  String.mk (s.data.map Char.toLower)

/-- `getRoutingKey` of the standard decorator: lowercase the three parts
and join them with dots. -/
def getRoutingKey (domain entity action : String) : String :=
  jsToLower domain ++ "." ++ jsToLower entity ++ "." ++ jsToLower action

/-- Resolved per-subscription retry policy (`queueConfig.retryPolicy`). -/
structure RetryPolicy where
  maxRetries : Nat
  delayMs : Nat
  deriving DecidableEq, Repr

/-- The derived queue topology for one subscription (`queueConfig`). -/
structure QueueConfig where
  routingKey : String
  queueName : String
  retryExchangeName : String
  retryQueueName : String
  requeueExchangeName : String
  errorExchangeName : String
  errorQueueName : String
  retryPolicy : RetryPolicy
  deriving DecidableEq, Repr

/-- `retry?.count ?? defaultMaxRetries` (nullish coalescing: a present
count of 0 is kept). -/
def effectiveMaxRetries (retry : Option RetryOptions) (cfg : EventBusConfig) : Nat :=
  match retry with
  | some r => r.count.getD cfg.retry.defaultMaxRetries
  | none => cfg.retry.defaultMaxRetries

/-- `retry?.delayMs ?? defaultRetryDelayMs`. -/
def effectiveRetryDelayMs (retry : Option RetryOptions) (cfg : EventBusConfig) : Nat :=
  match retry with
  | some r => r.delayMs.getD cfg.retry.defaultRetryDelayMs
  | none => cfg.retry.defaultRetryDelayMs

/-- `buildQueueConfig` of the standard decorator: routing key from
domain/entity/action; queue name is the custom `queue` when truthy, else
`{appName}.{domain}.{entity}.{action}`; companion names are suffixes of
the queue name. -/
def buildQueueConfig (cfg : EventBusConfig) (options : SubscribeToOptions) : QueueConfig :=
  let routingKey := getRoutingKey options.domain options.entity options.action
  let queueName := jsOrStr options.queue
    (cfg.appName ++ "." ++ options.domain ++ "." ++ options.entity ++ "." ++ options.action)
  { routingKey := routingKey
    queueName := queueName
    retryExchangeName := queueName ++ ".retry"
    retryQueueName := queueName ++ ".retry"
    requeueExchangeName := queueName ++ ".requeue"
    errorExchangeName := queueName ++ ".error"
    errorQueueName := queueName ++ ".error"
    retryPolicy :=
      { maxRetries := effectiveMaxRetries options.retry cfg
        delayMs := effectiveRetryDelayMs options.retry cfg } }

/-- `buildLegacyQueueConfig` of the legacy decorator: the raw routing key
is used verbatim; the default queue name is
`legacy.{appName}.{routingKey}`. -/
def buildLegacyQueueConfig (cfg : EventBusConfig) (options : LegacySubscribeToOptions) :
    QueueConfig :=
  let queueName := jsOrStr options.queue
    ("legacy." ++ cfg.appName ++ "." ++ options.routingKey)
  { routingKey := options.routingKey
    queueName := queueName
    retryExchangeName := queueName ++ ".retry"
    retryQueueName := queueName ++ ".retry"
    requeueExchangeName := queueName ++ ".requeue"
    errorExchangeName := queueName ++ ".error"
    errorQueueName := queueName ++ ".error"
    retryPolicy :=
      { maxRetries := effectiveMaxRetries options.retry cfg
        delayMs := effectiveRetryDelayMs options.retry cfg } }

/-- Broker-level options of one queue: the `durable` flag plus the
`arguments` object. -/
structure QueueOptions where
  durable : Bool
  arguments : JObj
  deriving DecidableEq, Repr

/-- Result of `EventBusDecoratorUtils.buildQueueOptions`. -/
structure BuiltQueueOptions where
  retryQueueOptions : QueueOptions
  errorQueueOptions : QueueOptions
  mainQueueOptions : QueueOptions
  deriving DecidableEq, Repr

/-- `EventBusDecoratorUtils.buildQueueOptions(options, queueConfig)`.
`queueOptions` and `errorQueueOptions` are the caller-supplied override
objects read off `options`; each `arguments` object is written in the
exact literal/spread order of the source, so `jsGet` resolves conflicts
the way JavaScript does (the spread of the caller overrides comes last). -/
def buildQueueOptions (queueOptions errorQueueOptions : JObj) (queueConfig : QueueConfig) :
    BuiltQueueOptions :=
  { retryQueueOptions :=
      { durable := true
        arguments :=
          [("x-message-ttl", JVal.num queueConfig.retryPolicy.delayMs),
           ("x-dead-letter-exchange", JVal.str queueConfig.requeueExchangeName)] }
    errorQueueOptions :=
      { durable := true
        arguments :=
          ("x-message-ttl", JVal.num (1000 * 60 * 60 * 24 * 30)) :: errorQueueOptions }
    mainQueueOptions :=
      { durable := true
        arguments :=
          ("x-dead-letter-exchange", JVal.str queueConfig.retryExchangeName) :: queueOptions } }

/-- One entry of the broker-maintained `x-death` dead-letter history:
the queue that dead-lettered the message and the accumulated count. -/
structure DeathEntry where
  queue : String
  count : Nat
  deriving DecidableEq, Repr

/-- `EventBusProcessingInterceptor.getCurrentAttemptCount`: empty history
means first attempt (1); otherwise the accumulated count of the entry
matching the `x-first-death-queue` header (0 when the header is missing
or no entry matches) plus 1. -/
def getCurrentAttemptCount (xDeath : List DeathEntry) (xFirstDeathQueue : Option String) : Nat :=
  if xDeath.isEmpty then 1
  else
    let originalSubscriberQueue := xFirstDeathQueue.getD ""
    let originalQueueDeathEntry := xDeath.find? (fun d => d.queue == originalSubscriberQueue)
    let originalQueueDeathCount :=
      match originalQueueDeathEntry with
      | some e => e.count
      | none => 0
    originalQueueDeathCount + 1

/-- Event statuses recorded by the metrics service (`EventStatus`). -/
inductive EventStatus where
  | received
  | processed
  | failed
  | retried
  | sent_to_error_exchange
  | duplicate_detected
  deriving DecidableEq, Repr

/-- Validation failure classifications (`ValidationFailureType`). -/
inductive ValidationFailureType where
  | missing_actor
  | invalid_headers
  | invalid_payload
  deriving DecidableEq, Repr

/-- The exception re-raised by the interceptor for the error handler:
either a `NonRetryableError` (terminal) or a `RetryError` carrying the
attempt number. -/
inductive ThrownSignal where
  | nonRetryable
  | retry (attemptNumber : Nat)
  deriving DecidableEq, Repr

/-- `EventBusProcessingInterceptor.handleRetry`, given whether the caught
error is a `NonRetryableError`, the retry headers of the message, the
per-subscription `retry?.count` and the configured default max retries.
Returns the status recorded by the metrics service together with the
exception thrown for the downstream error handler. -/
def handleRetry (errorIsNonRetryable : Bool) (xDeath : List DeathEntry)
    (xFirstDeathQueue : Option String) (retryCount : Option Nat) (defaultMaxRetries : Nat) :
    EventStatus × ThrownSignal :=
  if errorIsNonRetryable then
    (EventStatus.sent_to_error_exchange, ThrownSignal.nonRetryable)
  else
    let attemptNumber := getCurrentAttemptCount xDeath xFirstDeathQueue
    let maxRetries := retryCount.getD defaultMaxRetries
    if attemptNumber > maxRetries then
      (EventStatus.sent_to_error_exchange, ThrownSignal.nonRetryable)
    else
      (EventStatus.retried, ThrownSignal.retry attemptNumber)

/-- Which kind of subscription a handler was registered with
(`metadata.eventType`). -/
inductive SubEventType where
  | standard
  | legacy
  deriving DecidableEq, Repr

/-- JS truthiness of an optional string-like value: `undefined`/`null`
and the empty string are falsy. -/
def jsTruthy (v : Option String) : Bool :=
  match v with
  | some s => s != ""
  | none => false

/-- `EventBusProcessingInterceptor.validateEvent`: legacy events are
never validated; standard events require a truthy `actor` header (checked
first) and a payload carrying truthy `data` and `schema_ref`. -/
def validateEvent (eventType : SubEventType) (actor data schemaRef : Option String) :
    Option ValidationFailureType :=
  match eventType with
  | SubEventType.legacy => none
  | SubEventType.standard =>
    if !jsTruthy actor then some ValidationFailureType.missing_actor
    else if !jsTruthy data || !jsTruthy schemaRef then some ValidationFailureType.invalid_payload
    else none

/-- One metrics-service call observable during `processEvent`:
`recordEventStatus` or the failure-counter increment inside
`recordValidationFailure`. -/
inductive MetricAction where
  | status (s : EventStatus)
  | validationFailure (v : ValidationFailureType)
  deriving DecidableEq, Repr

/-- Result of the user handler invocation inside the pipeline. -/
inductive HandlerResult where
  | ok
  | errPlain
  | errNonRetryable
  deriving DecidableEq, Repr

/-- Outcome of one pass of the interceptor: completed normally, or
re-raised a signal for the error handler. -/
inductive ProcessOutcome where
  | success
  | signal (s : ThrownSignal)
  deriving DecidableEq, Repr

/-- `EventBusProcessingInterceptor.processEvent` control flow: record
`received`; on a validation failure record it (the metrics service also
records `failed`), throw `NonRetryableError`, land in the catch block
(recording `failed` again) and run `handleRetry`; otherwise run the
handler, recording `processed` on success and `failed` + `handleRetry`
on an exception (`NonRetryableError` exceptions keep their class). -/
def processEvent (eventType : SubEventType) (actor data schemaRef : Option String)
    (handler : HandlerResult) (xDeath : List DeathEntry) (xFirstDeathQueue : Option String)
    (retryCount : Option Nat) (defaultMaxRetries : Nat) :
    List MetricAction × ProcessOutcome :=
  match validateEvent eventType actor data schemaRef with
  | some vf =>
    let (st, sig) := handleRetry true xDeath xFirstDeathQueue retryCount defaultMaxRetries
    ([MetricAction.status EventStatus.received, MetricAction.validationFailure vf,
      MetricAction.status EventStatus.failed, MetricAction.status EventStatus.failed,
      MetricAction.status st],
     ProcessOutcome.signal sig)
  | none =>
    match handler with
    | HandlerResult.ok =>
      ([MetricAction.status EventStatus.received, MetricAction.status EventStatus.processed],
       ProcessOutcome.success)
    | HandlerResult.errPlain =>
      let (st, sig) := handleRetry false xDeath xFirstDeathQueue retryCount defaultMaxRetries
      ([MetricAction.status EventStatus.received, MetricAction.status EventStatus.failed,
        MetricAction.status st],
       ProcessOutcome.signal sig)
    | HandlerResult.errNonRetryable =>
      let (st, sig) := handleRetry true xDeath xFirstDeathQueue retryCount defaultMaxRetries
      ([MetricAction.status EventStatus.received, MetricAction.status EventStatus.failed,
        MetricAction.status st],
       ProcessOutcome.signal sig)

/-- The error value received by the retry error handler
(`event-retry-handler`): a `NonRetryableError` (an `EventError` with
`shouldRetry = false`, optionally wrapping an original error), a
`RetryError` (an `EventError` with `shouldRetry = true` carrying the
attempt number), a bare `EventError` (`shouldRetry` defaults to true), or
a plain error not derived from `EventError`. -/
inductive DispatchError where
  | nonRetryable (message : String) (originalErrorMessage : Option String)
  | retryError (message : String) (attemptNumber : Nat)
  | eventError (message : String)
  | plain (message : String)
  deriving DecidableEq, Repr

/-- `error.message` of a dispatch error. -/
def DispatchError.message : DispatchError → String
  | DispatchError.nonRetryable m _ => m
  | DispatchError.retryError m _ => m
  | DispatchError.eventError m => m
  | DispatchError.plain m => m

/-- `error instanceof EventError && error.shouldRetry`: true exactly for
`RetryError` and bare `EventError`; false for `NonRetryableError`
(`shouldRetry = false`) and for plain errors (not `EventError`). -/
def isEventErrorAndShouldRetry : DispatchError → Bool
  | DispatchError.nonRetryable _ _ => false
  | DispatchError.retryError _ _ => true
  | DispatchError.eventError _ => true
  | DispatchError.plain _ => false

/-- AMQP message properties: the headers object plus the remaining
properties, kept opaque (they are spread unchanged into the error
publish). -/
structure MsgProperties where
  headers : JObj
  otherProps : String
  deriving DecidableEq, Repr

/-- An AMQP delivery as seen by the error handler. -/
structure ConsumeMsg where
  content : String
  properties : MsgProperties
  deriving DecidableEq, Repr

/-- A broker channel operation performed by the error handler. `nack`
records the `allUpTo` and `requeue` flags of `channel.nack`; `publish`
records exchange, routing key, body and the resulting properties. -/
inductive BrokerAction where
  | nack (allUpTo requeue : Bool)
  | publish (exchange routingKey content : String) (properties : MsgProperties)
  | ack
  deriving DecidableEq, Repr

/-- `publishToErrorExchange(channel, originalMsg, queueConfig, error)`:
publish the original body to the error exchange on the exact routing key,
with the original properties whose headers gain the error-specific
headers (`x-non-retryable` marker and original-error message for
`NonRetryableError`, original-error message otherwise) and the
latest-retry timestamp. `now` stands for `new Date().toISOString()`. -/
def publishToErrorExchange (originalMsg : ConsumeMsg) (queueConfig : QueueConfig)
    (error : DispatchError) (now : String) : BrokerAction :=
  let errorSpecificHeaders : JObj :=
    match error with
    | DispatchError.nonRetryable m oe =>
      [("x-non-retryable", JVal.bool true),
       ("x-retry-original-error", JVal.str (jsOrStr oe m))]
    | e => [("x-retry-original-error", JVal.str e.message)]
  let errorHeaders : JObj :=
    originalMsg.properties.headers ++ errorSpecificHeaders ++
      [("x-retry-latest-timestamp", JVal.str now)]
  BrokerAction.publish queueConfig.errorExchangeName queueConfig.routingKey
    originalMsg.content
    { headers := errorHeaders, otherProps := originalMsg.properties.otherProps }

/-- Fault model for the broker channel primitives used by the error
handler: `none` means the call succeeds, `some m` means it throws an
error with message `m`. The first three drive the try block, the last two
the catch block. -/
structure BrokerFaults where
  nackFail : Option String
  publishFail : Option String
  ackFail : Option String
  rescuePublishFail : Option String
  rescueAckFail : Option String
  deriving DecidableEq, Repr

/-- All channel primitives succeed. -/
def noFaults : BrokerFaults :=
  { nackFail := none, publishFail := none, ackFail := none,
    rescuePublishFail := none, rescueAckFail := none }

/-- The catch block of the handler returned by `createEventRetryHandler`:
log, publish the caught `handlerError` to the error exchange, then ack.
Returns the successful channel operations together with the message of an
exception escaping the handler, if any. -/
def rescueBlock (msg : ConsumeMsg) (queueConfig : QueueConfig) (now : String)
    (faults : BrokerFaults) (handlerErrorMessage : String) :
    List BrokerAction × Option String :=
  match faults.rescuePublishFail with
  | some m => ([], some m)
  | none =>
    let pub := publishToErrorExchange msg queueConfig (DispatchError.plain handlerErrorMessage) now
    match faults.rescueAckFail with
    | some m => ([pub], some m)
    | none => ([pub, BrokerAction.ack], none)

/-- The error handler returned by `createEventRetryHandler(logger,
queueConfig)`: an `EventError` with `shouldRetry` is nacked without
requeue (the dead-letter binding routes it to the retry exchange); every
other error is published to the error exchange and the original message
acked; any exception inside the handler falls into the catch block
(`rescueBlock`). Returns the successful channel operations and the
message of an escaping exception, if any. -/
def createEventRetryHandler (queueConfig : QueueConfig) (msg : ConsumeMsg)
    (error : DispatchError) (now : String) (faults : BrokerFaults) :
    List BrokerAction × Option String :=
  if isEventErrorAndShouldRetry error then
    match faults.nackFail with
    | some m => rescueBlock msg queueConfig now faults m
    | none => ([BrokerAction.nack false false], none)
  else
    match faults.publishFail with
    | some m => rescueBlock msg queueConfig now faults m
    | none =>
      let pub := publishToErrorExchange msg queueConfig error now
      match faults.ackFail with
      | some m =>
        let (acts, escaped) := rescueBlock msg queueConfig now faults m
        (pub :: acts, escaped)
      | none => ([pub, BrokerAction.ack], none)

/-- Domain/entity/action labels produced by the metrics service
(`ParsedRoutingKey`). -/
structure ParsedRoutingKey where
  domain : String
  entity : String
  action : String
  deriving DecidableEq, Repr

/-- Helper for `jsSplit`: walk the characters, accumulating the current
token (reversed) and emitting it at each separator. -/
def jsSplitAux (sep : Char) : List Char → List Char → List String
  | [], acc => [String.mk acc.reverse]
  | c :: cs, acc =>
    if c == sep then String.mk acc.reverse :: jsSplitAux sep cs []
    else jsSplitAux sep cs (c :: acc)

/-- JavaScript `String.prototype.split` on a single-character separator,
embedded structurally (the empty string splits to `[""]`, like JS). -/
def jsSplit (sep : Char) (s : String) : List String :=
  jsSplitAux sep s.data []

/-- `EventBusMetricsService.parseRoutingKey`: split on dots; with at
least 3 tokens the first is the domain, the second the entity, and the
remaining tokens rejoined with dots are the action; otherwise `null`. -/
def parseRoutingKey (routingKey : String) : Option ParsedRoutingKey :=
  let parts := jsSplit '.' routingKey
  if 3 ≤ parts.length then
    match parts with
    | domain :: entity :: actionParts =>
      some { domain := domain, entity := entity,
             action := String.intercalate "." actionParts }
    | _ => none
  else none

/-- The declared subscription metadata as the metrics service reads it:
for a standard subscription the declared domain/entity/action (each
guarded with `?? 'unknown'` in the source, hence optional here), for a
legacy subscription nothing. -/
inductive MetricsMetadata where
  | standard (domain entity action : Option String)
  | legacy
  deriving DecidableEq, Repr

/-- `EventBusMetricsService.getActualDomainEntityAction`: standard
subscriptions use the parsed live routing key when it parses, else the
declared metadata with `unknown` for absent fields; legacy subscriptions
always get the fixed `unknown` triple. -/
def getActualDomainEntityAction (metadata : MetricsMetadata) (routingKey : String) :
    ParsedRoutingKey :=
  match metadata with
  | MetricsMetadata.standard domain entity action =>
    match parseRoutingKey routingKey with
    | some parsed => parsed
    | none =>
      { domain := domain.getD "unknown"
        entity := entity.getD "unknown"
        action := action.getD "unknown" }
  | MetricsMetadata.legacy =>
    { domain := "unknown", entity := "unknown", action := "unknown" }

/-- Modelled from the spec: the constant `PUBLISH_EVENT_TYPES` is
imported by the publisher from `interfaces/event.interface`, whose
defining module is not among the repository sources here; the spec fixes
the allowed set as created/read/updated/deleted, matching the
`PublishEventType` union in the interfaces that are present. -/
def PUBLISH_EVENT_TYPES : List String := ["created", "read", "updated", "deleted"]

/-- The options accepted by `EventBusPublisher.publish`. `data`,
`prevData` and `actor` are arbitrary JS values checked only for
null/undefined (and truthiness for `actor`), so they are embedded as
optional opaque strings. -/
structure PublishEventOptions where
  entityType : String
  eventType : String
  data : Option String
  prevData : Option String
  actor : Option String
  version : Option String
  domain : Option String
  deriving DecidableEq, Repr

/-- JavaScript `String.prototype.trim`, embedded structurally: drop
leading and trailing whitespace. -/
def jsTrim (s : String) : String :=
  String.mk
    (((s.data.dropWhile Char.isWhitespace).reverse.dropWhile Char.isWhitespace).reverse)

/-- `EventBusPublisher.validatePublishOptions`: the ordered checks and
their exact rejection messages; `none` means the options are valid. -/
def validatePublishOptions (options : PublishEventOptions) : Option String :=
  if jsTrim options.entityType == "" then
    some "entityType is required and cannot be empty"
  else if jsTrim options.eventType == "" then
    some "eventType is required and cannot be empty"
  else if !(PUBLISH_EVENT_TYPES.contains options.eventType) then
    some ("eventType is not valid. Must be one of: " ++
      String.intercalate ", " PUBLISH_EVENT_TYPES)
  else if options.data == none then
    some "data is required"
  else if !jsTruthy options.actor then
    some "actor is required"
  else if options.eventType == "updated" && options.prevData == none then
    some "prevData is required"
  else
    none

/-- `EventBuilder.buildRoutingKey`: lowercase the three parts and join
them with dots. -/
def buildRoutingKey (domain entityType eventType : String) : String :=
  jsToLower domain ++ "." ++ jsToLower entityType ++ "." ++ jsToLower eventType

/-- The single broker publish performed by `EventBusPublisher.publish`
on valid input: target exchange, routing key, and the persistent
delivery-mode flag of the publish options. -/
structure PublishAction where
  exchange : String
  routingKey : String
  persistent : Bool
  deriving DecidableEq, Repr

/-- `EventBusPublisher.publish`: validate first — a failing check rejects
with its message and nothing is published; on valid options publish once
to the configured exchange with routing key
`{domain || defaultDomain}.{entityType}.{eventType}` lowercased and
persistent delivery. -/
def publish (cfg : EventBusConfig) (options : PublishEventOptions) :
    Except String PublishAction :=
  match validatePublishOptions options with
  | some message => Except.error message
  | none =>
    let domain := jsOrStr options.domain cfg.defaultDomain
    let routingKey := buildRoutingKey domain options.entityType options.eventType
    Except.ok { exchange := cfg.exchange, routingKey := routingKey, persistent := true }

/-- What a subscription decorator produced: `disabled` stands for the
no-op decorator of `handleDisabledEventBus` (descriptor returned
unchanged, no validation, no queue config, no infrastructure assertion);
`registered` carries the derived queue config, the built queue options,
the exchange bound and whether the retry infrastructure was asserted. -/
inductive RegistrationResult where
  | disabled
  | registered (queueConfig : QueueConfig) (built : BuiltQueueOptions)
      (exchange : String) (infrastructureAsserted : Bool)
  deriving DecidableEq, Repr

/-- `EventBusDecoratorUtils.handleDisabledEventBus`: the returned
decorator hands the descriptor back unchanged. -/
def handleDisabledEventBus {α : Type} (descriptor : α) : α := descriptor

/-- `SubscribeTo(options)`: when `DISABLE_EVENT_BUS === 'true'` return
the disabled no-op decorator before any validation; otherwise validate
the descriptor (domain, entity and action must be truthy), derive the
queue config and queue options, assert the retry infrastructure and
register against the main exchange. -/
def SubscribeTo (disableEventBus : String) (cfg : EventBusConfig)
    (options : SubscribeToOptions) : Except String RegistrationResult :=
  if disableEventBus == "true" then
    Except.ok RegistrationResult.disabled
  else if options.domain == "" || options.entity == "" || options.action == "" then
    Except.error "SubscribeTo decorator requires domain, entity, and action properties"
  else
    let queueConfig := buildQueueConfig cfg options
    let built := buildQueueOptions options.queueOptions options.errorQueueOptions queueConfig
    Except.ok (RegistrationResult.registered queueConfig built cfg.exchange true)

/-- `LegacySubscribeTo(options)`: same shape as `SubscribeTo` with the
legacy queue config, requiring only a truthy `routingKey` and binding to
the legacy exchange. -/
def LegacySubscribeTo (disableEventBus : String) (cfg : EventBusConfig)
    (options : LegacySubscribeToOptions) : Except String RegistrationResult :=
  if disableEventBus == "true" then
    Except.ok RegistrationResult.disabled
  else if options.routingKey == "" then
    Except.error "LegacySubscribeTo decorator requires routingKey property"
  else
    let queueConfig := buildLegacyQueueConfig cfg options
    let built := buildQueueOptions options.queueOptions options.errorQueueOptions queueConfig
    Except.ok (RegistrationResult.registered queueConfig built cfg.legacyExchange true)

/-- A sample configuration (appName `svc`, defaults matching the
documented defaults) used for concrete witnesses. -/
def sampleCfg : EventBusConfig :=
  { appName := "svc", exchange := "event_bus", legacyExchange := "legacy_bus",
    defaultDomain := "vcita",
    retry := { defaultMaxRetries := 1, defaultRetryDelayMs := 10000 } }

/-- The end-to-end sample subscription of the spec:
`{domain: users, entity: user, action: updated, retry: {count: 2, delayMs: 1000}}`. -/
def sampleOpts : SubscribeToOptions :=
  { domain := "users", entity := "user", action := "updated", queue := none,
    queueOptions := [], errorQueueOptions := [],
    retry := some { count := some 2, delayMs := some 1000 } }

/-- A sample legacy subscription on the raw pattern `legacy.orders.*`. -/
def sampleLopts : LegacySubscribeToOptions :=
  { routingKey := "legacy.orders.*", queue := none,
    queueOptions := [], errorQueueOptions := [], retry := none }

/-- A sample derived queue config for the dispatcher theorems. -/
def sampleQueueConfig : QueueConfig := buildQueueConfig sampleCfg sampleOpts

/-- A sample inbound delivery for the dispatcher theorems. -/
def sampleMsg : ConsumeMsg :=
  { content := "body",
    properties := { headers := [("event_uid", JVal.str "e1")], otherProps := "props" } }

/-- C2: `getCurrentAttemptCount` returns 1 on an empty dead-letter
history; on a non-empty history it returns `count + 1` for the entry
whose queue equals the first-death-queue header, and 1 when no entry
matches. -/
theorem getCurrentAttemptCount_spec (hist : List DeathEntry) (q : String) :
    (hist = [] → getCurrentAttemptCount hist (some q) = 1) ∧
    (∀ e : DeathEntry, hist.find? (fun d => d.queue == q) = some e →
      getCurrentAttemptCount hist (some q) = e.count + 1) ∧
    (hist ≠ [] → hist.find? (fun d => d.queue == q) = none →
      getCurrentAttemptCount hist (some q) = 1) := by
  refine ⟨?_, ?_, ?_⟩
  · intro h; subst h; rfl
  · intro e he
    cases hist with
    | nil => simp at he
    | cons a as => simp [getCurrentAttemptCount, he]
  · intro hne hnone
    cases hist with
    | nil => exact absurd rfl hne
    | cons a as => simp [getCurrentAttemptCount, hnone]

/-- Witness for C2 at the concrete examples of the spec. -/
theorem getCurrentAttemptCount_spec_witness :
    getCurrentAttemptCount [] (some "q1") = 1 ∧
    getCurrentAttemptCount [⟨"q1", 2⟩, ⟨"q2", 5⟩] (some "q1") = 3 ∧
    getCurrentAttemptCount [⟨"q2", 5⟩] (some "q1") = 1 :=
  ⟨(getCurrentAttemptCount_spec [] "q1").1 rfl,
   (getCurrentAttemptCount_spec [⟨"q1", 2⟩, ⟨"q2", 5⟩] "q1").2.1 ⟨"q1", 2⟩ (by decide),
   (getCurrentAttemptCount_spec [⟨"q2", 5⟩] "q1").2.2 (by decide) (by decide)⟩

/-- C3: for a retryable failure, `handleRetry` routes to the error
exchange (status `sent_to_error_exchange`, terminal `NonRetryableError`)
when the computed attempt number exceeds the effective max retries
(per-subscription `retry.count`, else the configured default), and
otherwise records `retried` and raises a `RetryError` carrying the
attempt number. -/
theorem handleRetry_spec (xDeath : List DeathEntry) (xfdq : Option String)
    (retryCount : Option Nat) (defaultMaxRetries : Nat) :
    (getCurrentAttemptCount xDeath xfdq > retryCount.getD defaultMaxRetries →
      handleRetry false xDeath xfdq retryCount defaultMaxRetries =
        (EventStatus.sent_to_error_exchange, ThrownSignal.nonRetryable)) ∧
    (getCurrentAttemptCount xDeath xfdq ≤ retryCount.getD defaultMaxRetries →
      handleRetry false xDeath xfdq retryCount defaultMaxRetries =
        (EventStatus.retried, ThrownSignal.retry (getCurrentAttemptCount xDeath xfdq))) := by
  constructor
  · intro h; simp [handleRetry, h]
  · intro h; simp [handleRetry, Nat.not_lt.mpr h]

/-- Witness for C3 with max retries 1: the first failure (attempt 1) is
retried, the failure after one dead-letter pass (attempt 2 > 1) is routed
to the error exchange. -/
theorem handleRetry_spec_witness :
    handleRetry false [] (some "svc.users.user.updated") (some 1) 3 =
      (EventStatus.retried, ThrownSignal.retry 1) ∧
    handleRetry false [⟨"svc.users.user.updated", 1⟩] (some "svc.users.user.updated")
        (some 1) 3 =
      (EventStatus.sent_to_error_exchange, ThrownSignal.nonRetryable) :=
  ⟨(handleRetry_spec [] (some "svc.users.user.updated") (some 1) 3).2 (by decide),
   (handleRetry_spec [⟨"svc.users.user.updated", 1⟩] (some "svc.users.user.updated")
     (some 1) 3).1 (by decide)⟩

/-- C10: with `DISABLE_EVENT_BUS = 'true'` both decorators return the
no-op decorator before any descriptor validation, topology derivation or
infrastructure assertion — for every options object, including ones with
missing (empty) domain/entity/action or routingKey — and the no-op
decorator returns the handler descriptor unchanged. -/
theorem disabled_event_bus (cfg : EventBusConfig) (opts : SubscribeToOptions)
    (lopts : LegacySubscribeToOptions) {α : Type} (descriptor : α) :
    SubscribeTo "true" cfg opts = Except.ok RegistrationResult.disabled ∧
    LegacySubscribeTo "true" cfg lopts = Except.ok RegistrationResult.disabled ∧
    handleDisabledEventBus descriptor = descriptor :=
  ⟨rfl, rfl, rfl⟩

/-- C4: with a healthy channel, the error handler given a terminal
`NonRetryableError` performs exactly one publish to the error exchange on
the exact routing key — original body and properties preserved, headers
gaining the terminal marker, the original-error message and the
latest-retry timestamp — followed by an ack and no nack; given a
retryable `EventError` (a `RetryError` or a bare `EventError`) it
performs exactly one nack with `requeue = false` and no publish. -/
theorem createEventRetryHandler_spec (qc : QueueConfig) (msg : ConsumeMsg)
    (now m : String) (oe : Option String) (a : Nat) :
    createEventRetryHandler qc msg (DispatchError.nonRetryable m oe) now noFaults =
      ([BrokerAction.publish qc.errorExchangeName qc.routingKey msg.content
          { headers := msg.properties.headers ++
              [("x-non-retryable", JVal.bool true),
               ("x-retry-original-error", JVal.str (jsOrStr oe m)),
               ("x-retry-latest-timestamp", JVal.str now)],
            otherProps := msg.properties.otherProps },
        BrokerAction.ack], none) ∧
    createEventRetryHandler qc msg (DispatchError.retryError m a) now noFaults =
      ([BrokerAction.nack false false], none) ∧
    createEventRetryHandler qc msg (DispatchError.eventError m) now noFaults =
      ([BrokerAction.nack false false], none) := by
  refine ⟨?_, rfl, rfl⟩
  simp [createEventRetryHandler, publishToErrorExchange, noFaults, isEventErrorAndShouldRetry]

/-- C9 counterexample: a terminal error whose error-exchange publish
throws enters the catch block, where the recovery publish throws as well;
the handler then performs no channel operation at all — in particular no
ack, so the original message is NOT removed from the main queue — and the
exception escapes, refuting the claim that the message is always
acknowledged when the dispatcher throws while handling a failure. -/
theorem eventRetryHandler_double_fault_counterexample :
    createEventRetryHandler sampleQueueConfig sampleMsg
        (DispatchError.nonRetryable "validation failed" none) "2026-01-01T00:00:00Z"
        { nackFail := none, publishFail := some "broker unavailable", ackFail := none,
          rescuePublishFail := some "broker unavailable", rescueAckFail := none } =
      ([], some "broker unavailable") ∧
    BrokerAction.ack ∉
      (createEventRetryHandler sampleQueueConfig sampleMsg
        (DispatchError.nonRetryable "validation failed" none) "2026-01-01T00:00:00Z"
        { nackFail := none, publishFail := some "broker unavailable", ackFail := none,
          rescuePublishFail := some "broker unavailable", rescueAckFail := none }).1 := by
  refine ⟨rfl, ?_⟩
  simp [createEventRetryHandler, rescueBlock, isEventErrorAndShouldRetry]

/-- C9 amended: when a channel primitive throws inside the try block of
the error handler (the nack of a retryable error, or the error-exchange
publish or ack of a terminal error), the catch block publishes the caught
error to the error exchange and then acks the original message — provided
those two recovery operations succeed; when the recovery publish itself
also throws, the ack is skipped and the exception escapes the handler. -/
theorem eventRetryHandler_rescue (qc : QueueConfig) (msg : ConsumeMsg)
    (now m fm rm : String) (oe : Option String) (a : Nat) :
    createEventRetryHandler qc msg (DispatchError.retryError m a) now
        { nackFail := some fm, publishFail := none, ackFail := none,
          rescuePublishFail := none, rescueAckFail := none } =
      ([publishToErrorExchange msg qc (DispatchError.plain fm) now, BrokerAction.ack],
       none) ∧
    createEventRetryHandler qc msg (DispatchError.nonRetryable m oe) now
        { nackFail := none, publishFail := some fm, ackFail := none,
          rescuePublishFail := none, rescueAckFail := none } =
      ([publishToErrorExchange msg qc (DispatchError.plain fm) now, BrokerAction.ack],
       none) ∧
    createEventRetryHandler qc msg (DispatchError.nonRetryable m oe) now
        { nackFail := none, publishFail := none, ackFail := some fm,
          rescuePublishFail := none, rescueAckFail := none } =
      ([publishToErrorExchange msg qc (DispatchError.nonRetryable m oe) now,
        publishToErrorExchange msg qc (DispatchError.plain fm) now, BrokerAction.ack],
       none) ∧
    createEventRetryHandler qc msg (DispatchError.nonRetryable m oe) now
        { nackFail := none, publishFail := some fm, ackFail := none,
          rescuePublishFail := some rm, rescueAckFail := none } =
      ([], some rm) :=
  ⟨rfl, rfl, rfl, rfl⟩

/-- C1 counterexample: the caller-supplied `queueOptions` are spread
AFTER the system `x-dead-letter-exchange` entry in the main-queue
`arguments` literal, so in JavaScript a caller override of
`x-dead-letter-exchange` wins: with the override `caller-exchange` the
effective value is `caller-exchange`, not the subscription retry
exchange name — refuting the claim that the key is always
system-controlled. -/
theorem mainQueueOptions_dlx_override_counterexample :
    jsGet (buildQueueOptions [("x-dead-letter-exchange", JVal.str "caller-exchange")] []
        sampleQueueConfig).mainQueueOptions.arguments "x-dead-letter-exchange" =
      some (JVal.str "caller-exchange") ∧
    JVal.str "caller-exchange" ≠ JVal.str sampleQueueConfig.retryExchangeName := by
  refine ⟨rfl, ?_⟩
  decide

/-- C1 amended: the planned main queue is durable and its arguments give
`x-dead-letter-exchange` the subscription retry exchange name only as a
default: the effective value is the caller override when one is supplied,
else the retry exchange name; caller overrides win on every key
(including the dead-letter-exchange key, which is NOT system-controlled
against overrides). -/
theorem mainQueueOptions_dlx (queueOptions errorQueueOptions : JObj) (qc : QueueConfig) :
    (buildQueueOptions queueOptions errorQueueOptions qc).mainQueueOptions.durable = true ∧
    jsGet (buildQueueOptions queueOptions errorQueueOptions qc).mainQueueOptions.arguments
        "x-dead-letter-exchange" =
      some ((jsGet queueOptions "x-dead-letter-exchange").getD
        (JVal.str qc.retryExchangeName)) ∧
    (∀ k v, jsGet queueOptions k = some v →
      jsGet (buildQueueOptions queueOptions errorQueueOptions qc).mainQueueOptions.arguments
          k = some v) := by
  refine ⟨rfl, ?_, ?_⟩
  · cases h : jsGet queueOptions "x-dead-letter-exchange" with
    | none => simp [buildQueueOptions, jsGet, h]
    | some v => simp [buildQueueOptions, jsGet, h]
  · intro k v h
    simp [buildQueueOptions, jsGet, h]

/-- Witness for C1 amended: a caller override of an unrelated key
(`x-max-length`) survives into the main queue arguments, and with no
override the dead-letter-exchange defaults to the retry exchange name. -/
theorem mainQueueOptions_dlx_witness :
    jsGet (buildQueueOptions [("x-max-length", JVal.num 5)] []
        sampleQueueConfig).mainQueueOptions.arguments "x-max-length" =
      some (JVal.num 5) ∧
    jsGet (buildQueueOptions [] [] sampleQueueConfig).mainQueueOptions.arguments
        "x-dead-letter-exchange" =
      some (JVal.str sampleQueueConfig.retryExchangeName) :=
  ⟨(mainQueueOptions_dlx [("x-max-length", JVal.num 5)] [] sampleQueueConfig).2.2
      "x-max-length" (JVal.num 5) rfl,
   (mainQueueOptions_dlx [] [] sampleQueueConfig).2.1⟩

/-- C5: with no custom queue name, the standard queue name is
`{appName}.{domain}.{entity}.{action}` and the legacy queue name is
`legacy.{appName}.{routingKey}`; the retry exchange/queue, requeue
exchange and error exchange/queue names are the queue name suffixed with
`.retry`, `.requeue` and `.error` (for both variants); and the retry
queue arguments set `x-message-ttl` to the effective retry delay
(per-subscription `delayMs` when given, else the configured default) and
`x-dead-letter-exchange` to the requeue exchange name. -/
theorem planTopology_names (cfg : EventBusConfig) (opts : SubscribeToOptions)
    (lopts : LegacySubscribeToOptions) (hq : opts.queue = none) (hlq : lopts.queue = none) :
    (buildQueueConfig cfg opts).queueName =
      cfg.appName ++ "." ++ opts.domain ++ "." ++ opts.entity ++ "." ++ opts.action ∧
    (buildQueueConfig cfg opts).retryExchangeName =
      (buildQueueConfig cfg opts).queueName ++ ".retry" ∧
    (buildQueueConfig cfg opts).retryQueueName =
      (buildQueueConfig cfg opts).queueName ++ ".retry" ∧
    (buildQueueConfig cfg opts).requeueExchangeName =
      (buildQueueConfig cfg opts).queueName ++ ".requeue" ∧
    (buildQueueConfig cfg opts).errorExchangeName =
      (buildQueueConfig cfg opts).queueName ++ ".error" ∧
    (buildQueueConfig cfg opts).errorQueueName =
      (buildQueueConfig cfg opts).queueName ++ ".error" ∧
    (buildLegacyQueueConfig cfg lopts).queueName =
      "legacy." ++ cfg.appName ++ "." ++ lopts.routingKey ∧
    (buildLegacyQueueConfig cfg lopts).retryExchangeName =
      (buildLegacyQueueConfig cfg lopts).queueName ++ ".retry" ∧
    (buildLegacyQueueConfig cfg lopts).retryQueueName =
      (buildLegacyQueueConfig cfg lopts).queueName ++ ".retry" ∧
    (buildLegacyQueueConfig cfg lopts).requeueExchangeName =
      (buildLegacyQueueConfig cfg lopts).queueName ++ ".requeue" ∧
    (buildLegacyQueueConfig cfg lopts).errorExchangeName =
      (buildLegacyQueueConfig cfg lopts).queueName ++ ".error" ∧
    (buildLegacyQueueConfig cfg lopts).errorQueueName =
      (buildLegacyQueueConfig cfg lopts).queueName ++ ".error" ∧
    jsGet (buildQueueOptions opts.queueOptions opts.errorQueueOptions
        (buildQueueConfig cfg opts)).retryQueueOptions.arguments "x-message-ttl" =
      some (JVal.num (effectiveRetryDelayMs opts.retry cfg)) ∧
    jsGet (buildQueueOptions opts.queueOptions opts.errorQueueOptions
        (buildQueueConfig cfg opts)).retryQueueOptions.arguments "x-dead-letter-exchange" =
      some (JVal.str (buildQueueConfig cfg opts).requeueExchangeName) ∧
    (∀ r d, opts.retry = some r → r.delayMs = some d →
      effectiveRetryDelayMs opts.retry cfg = d) ∧
    (∀ r, opts.retry = some r → r.delayMs = none →
      effectiveRetryDelayMs opts.retry cfg = cfg.retry.defaultRetryDelayMs) ∧
    (opts.retry = none →
      effectiveRetryDelayMs opts.retry cfg = cfg.retry.defaultRetryDelayMs) := by
  refine ⟨?_, rfl, rfl, rfl, rfl, rfl, ?_, rfl, rfl, rfl, rfl, rfl, rfl, rfl, ?_, ?_, ?_⟩
  · simp [buildQueueConfig, jsOrStr, hq]
  · simp [buildLegacyQueueConfig, jsOrStr, hlq]
  · intro r d hr hd; simp [effectiveRetryDelayMs, hr, hd]
  · intro r hr hd; simp [effectiveRetryDelayMs, hr, hd]
  · intro hr; simp [effectiveRetryDelayMs, hr]

/-- Witness for C5 at the end-to-end sample of the spec: appName `svc`,
subscription `{users, user, updated, retry: {2, 1000}}` and the sample
legacy subscription, yielding queue name `svc.users.user.updated`, its
four companions, and a retry-queue TTL of 1000 ms. -/
theorem planTopology_names_witness :
    (buildQueueConfig sampleCfg sampleOpts).queueName = "svc.users.user.updated" ∧
    (buildQueueConfig sampleCfg sampleOpts).retryExchangeName =
      "svc.users.user.updated.retry" ∧
    (buildQueueConfig sampleCfg sampleOpts).errorQueueName =
      "svc.users.user.updated.error" ∧
    (buildLegacyQueueConfig sampleCfg sampleLopts).queueName =
      "legacy.svc.legacy.orders.*" ∧
    jsGet (buildQueueOptions sampleOpts.queueOptions sampleOpts.errorQueueOptions
        (buildQueueConfig sampleCfg sampleOpts)).retryQueueOptions.arguments
      "x-message-ttl" = some (JVal.num 1000) := by
  have h := planTopology_names sampleCfg sampleOpts sampleLopts rfl rfl
  exact ⟨h.1.trans (by decide), (h.2.1.trans (congrArg (· ++ ".retry") h.1)).trans (by decide),
    (h.2.2.2.2.2.1.trans (congrArg (· ++ ".error") h.1)).trans (by decide),
    h.2.2.2.2.2.2.1.trans (by decide), h.2.2.2.2.2.2.2.2.2.2.2.2.1⟩

/-- A valid `updated` publish call (prevData supplied). -/
def validPublishOpts : PublishEventOptions :=
  { entityType := "user", eventType := "updated", data := some "{id:1}",
    prevData := some "{id:0}", actor := some "actor-1", version := none, domain := none }

/-- The same call without prevData. -/
def missingPrevDataOpts : PublishEventOptions :=
  { entityType := "user", eventType := "updated", data := some "{id:1}",
    prevData := none, actor := some "actor-1", version := none, domain := none }

/-- C6: `publish` validates in order — entityType non-empty, eventType
non-empty, eventType in the allowed set, data non-null, actor truthy,
prevData non-null for `updated` — rejecting with the exact messages and
publishing nothing; on valid options it performs exactly one broker
publish (persistent) with routing key
`{domain || defaultDomain}.{entityType}.{eventType}` lowercased. -/
theorem publish_validation (cfg : EventBusConfig) (o : PublishEventOptions) :
    (jsTrim o.entityType = "" →
      validatePublishOptions o = some "entityType is required and cannot be empty") ∧
    (jsTrim o.entityType ≠ "" → jsTrim o.eventType = "" →
      validatePublishOptions o = some "eventType is required and cannot be empty") ∧
    (jsTrim o.entityType ≠ "" → jsTrim o.eventType ≠ "" →
      o.eventType ∉ PUBLISH_EVENT_TYPES →
      validatePublishOptions o =
        some "eventType is not valid. Must be one of: created, read, updated, deleted") ∧
    (jsTrim o.entityType ≠ "" → jsTrim o.eventType ≠ "" →
      o.eventType ∈ PUBLISH_EVENT_TYPES → o.data = none →
      validatePublishOptions o = some "data is required") ∧
    (jsTrim o.entityType ≠ "" → jsTrim o.eventType ≠ "" →
      o.eventType ∈ PUBLISH_EVENT_TYPES → o.data ≠ none →
      jsTruthy o.actor = false →
      validatePublishOptions o = some "actor is required") ∧
    (jsTrim o.entityType ≠ "" → jsTrim o.eventType ≠ "" →
      o.eventType ∈ PUBLISH_EVENT_TYPES → o.data ≠ none →
      jsTruthy o.actor = true → o.eventType = "updated" → o.prevData = none →
      validatePublishOptions o = some "prevData is required") ∧
    (∀ message, validatePublishOptions o = some message →
      publish cfg o = Except.error message) ∧
    (validatePublishOptions o = none →
      publish cfg o = Except.ok
        { exchange := cfg.exchange,
          routingKey := jsToLower (jsOrStr o.domain cfg.defaultDomain) ++ "." ++
            jsToLower o.entityType ++ "." ++ jsToLower o.eventType,
          persistent := true }) := by
  refine ⟨?_, ?_, ?_, ?_, ?_, ?_, ?_, ?_⟩
  · intro h1; simp [validatePublishOptions, h1]
  · intro h1 h2; simp [validatePublishOptions, h1, h2]
  · intro h1 h2 h3
    simp [validatePublishOptions, h1, h2, h3, PUBLISH_EVENT_TYPES] at h3 ⊢
    simp [h3]
    decide
  · intro h1 h2 h3 h4
    simp [validatePublishOptions, h1, h2, h3, h4]
  · intro h1 h2 h3 h4 h5
    simp [validatePublishOptions, h1, h2, h3, h4, h5]
  · intro h1 h2 h3 h4 h5 h6 h7
    have h6b : (o.eventType == "updated") = true := by simp [h6]
    simp [validatePublishOptions, h1, h2, h3, h4, h5, h6b, h7]
  · intro message h; simp [publish, h]
  · intro h
    simp [publish, buildRoutingKey, h]

/-- Witness for C6 at the concrete example of the spec: the `updated`
call without prevData rejects with `prevData is required`; the
otherwise-identical call with prevData yields exactly one publish with
routing key `vcita.user.updated` (the configured default domain) and
persistent delivery. -/
theorem publish_validation_witness :
    validatePublishOptions missingPrevDataOpts = some "prevData is required" ∧
    publish sampleCfg missingPrevDataOpts = Except.error "prevData is required" ∧
    publish sampleCfg validPublishOpts =
      Except.ok { exchange := "event_bus", routingKey := "vcita.user.updated",
                  persistent := true } :=
  ⟨(publish_validation sampleCfg missingPrevDataOpts).2.2.2.2.2.1
      (by decide) (by decide) (by decide) (by decide) (by decide) rfl rfl,
   (publish_validation sampleCfg missingPrevDataOpts).2.2.2.2.2.2.1
      "prevData is required" (by decide),
   (publish_validation sampleCfg validPublishOpts).2.2.2.2.2.2.2 (by decide)⟩

/-- C7: legacy deliveries skip all shape validation (no validation
failure is ever raised, for any payload shape and handler outcome);
standard deliveries classify a falsy actor header as `missing_actor`
(checked before the payload), and a truthy actor with missing data or
schema_ref as `invalid_payload`; every validation failure is recorded and
wrapped as a terminal `NonRetryableError`, so the pipeline ends with
status `sent_to_error_exchange` and a terminal signal — never a retry. -/
theorem validateEvent_pipeline (actor data schemaRef : Option String)
    (handler : HandlerResult) (xDeath : List DeathEntry) (xfdq : Option String)
    (rc : Option Nat) (dm : Nat) :
    validateEvent SubEventType.legacy actor data schemaRef = none ∧
    (∀ vf, MetricAction.validationFailure vf ∉
      (processEvent SubEventType.legacy actor data schemaRef handler xDeath xfdq rc dm).1) ∧
    (jsTruthy actor = false →
      validateEvent SubEventType.standard actor data schemaRef =
        some ValidationFailureType.missing_actor) ∧
    (jsTruthy actor = true → (jsTruthy data = false ∨ jsTruthy schemaRef = false) →
      validateEvent SubEventType.standard actor data schemaRef =
        some ValidationFailureType.invalid_payload) ∧
    (∀ vf, validateEvent SubEventType.standard actor data schemaRef = some vf →
      processEvent SubEventType.standard actor data schemaRef handler xDeath xfdq rc dm =
        ([MetricAction.status EventStatus.received, MetricAction.validationFailure vf,
          MetricAction.status EventStatus.failed, MetricAction.status EventStatus.failed,
          MetricAction.status EventStatus.sent_to_error_exchange],
         ProcessOutcome.signal ThrownSignal.nonRetryable)) := by
  refine ⟨rfl, ?_, ?_, ?_, ?_⟩
  · intro vf
    cases handler <;> simp [processEvent, validateEvent, handleRetry]
  · intro h; simp [validateEvent, h]
  · intro h1 h2
    rcases h2 with h2 | h2 <;> simp [validateEvent, h1, h2]
  · intro vf h
    simp [processEvent, h, handleRetry]

/-- Witness for C7: a standard delivery with no actor header (and a
well-formed payload) is classified `missing_actor` and leaves the
pipeline as a terminal failure routed to the error exchange. -/
theorem validateEvent_pipeline_witness :
    validateEvent SubEventType.standard none (some "d") (some "user@v1") =
      some ValidationFailureType.missing_actor ∧
    processEvent SubEventType.standard none (some "d") (some "user@v1")
        HandlerResult.ok [] none none 1 =
      ([MetricAction.status EventStatus.received,
        MetricAction.validationFailure ValidationFailureType.missing_actor,
        MetricAction.status EventStatus.failed, MetricAction.status EventStatus.failed,
        MetricAction.status EventStatus.sent_to_error_exchange],
       ProcessOutcome.signal ThrownSignal.nonRetryable) :=
  ⟨(validateEvent_pipeline none (some "d") (some "user@v1") HandlerResult.ok [] none
      none 1).2.2.1 rfl,
   (validateEvent_pipeline none (some "d") (some "user@v1") HandlerResult.ok [] none
      none 1).2.2.2.2 ValidationFailureType.missing_actor (by decide)⟩

/-- C8: the metrics label resolver on a standard subscription uses the
live routing key when it has at least 3 dot-separated tokens (first =
domain, second = entity, rest rejoined = action, overriding the declared
metadata), falls back to the declared domain/entity/action (with
`unknown` for absent fields) when the key has fewer than 3 tokens, and on
a legacy subscription always returns the fixed `unknown` triple. -/
theorem getActualDomainEntityAction_spec (domain entity action : Option String)
    (rk : String) :
    (∀ p, parseRoutingKey rk = some p →
      getActualDomainEntityAction (MetricsMetadata.standard domain entity action) rk = p) ∧
    (parseRoutingKey rk = none →
      getActualDomainEntityAction (MetricsMetadata.standard domain entity action) rk =
        { domain := domain.getD "unknown", entity := entity.getD "unknown",
          action := action.getD "unknown" }) ∧
    getActualDomainEntityAction MetricsMetadata.legacy rk =
      { domain := "unknown", entity := "unknown", action := "unknown" } ∧
    (∀ d e rest, jsSplit '.' rk = d :: e :: rest → rest ≠ [] →
      parseRoutingKey rk =
        some { domain := d, entity := e, action := String.intercalate "." rest }) ∧
    ((jsSplit '.' rk).length < 3 → parseRoutingKey rk = none) := by
  refine ⟨?_, ?_, rfl, ?_, ?_⟩
  · intro p h; simp [getActualDomainEntityAction, h]
  · intro h; simp [getActualDomainEntityAction, h]
  · intro d e rest hsplit hne
    have hlen : 3 ≤ (jsSplit '.' rk).length := by
      rw [hsplit]
      have : 0 < rest.length := List.length_pos.mpr hne
      simp only [List.length_cons]
      omega
    simp [parseRoutingKey, hsplit, hlen, hne]
  · intro h
    simp [parseRoutingKey]
    intro hc
    omega

/-- Witness for C8 at the concrete examples of the spec: declared
metadata `{availability, *, created}` with live key
`availability.product.created` resolves to the real triple (the wildcard
entity is overridden); the unparseable key `invalid.format` falls back to
the declared metadata; a legacy subscription gets the `unknown` triple. -/
theorem getActualDomainEntityAction_spec_witness :
    getActualDomainEntityAction
        (MetricsMetadata.standard (some "availability") (some "*") (some "created"))
        "availability.product.created" =
      { domain := "availability", entity := "product", action := "created" } ∧
    getActualDomainEntityAction
        (MetricsMetadata.standard (some "availability") (some "*") (some "created"))
        "invalid.format" =
      { domain := "availability", entity := "*", action := "created" } ∧
    getActualDomainEntityAction MetricsMetadata.legacy "availability.product.created" =
      { domain := "unknown", entity := "unknown", action := "unknown" } :=
  ⟨(getActualDomainEntityAction_spec (some "availability") (some "*") (some "created")
      "availability.product.created").1
      { domain := "availability", entity := "product", action := "created" } (by decide),
   (getActualDomainEntityAction_spec (some "availability") (some "*") (some "created")
      "invalid.format").2.1 (by decide),
   (getActualDomainEntityAction_spec (some "availability") (some "*") (some "created")
      "availability.product.created").2.2.1⟩

end EventBusNest
